import Mathlib

/-!
Verification of the fs-sparse repository: a shallow embedding of
`src/lib.rs` (`SparseIter`, `SparseRangeIter` and their `next` methods) and of
`examples/print-info.rs` (`seek`, `one_file`), with theorems settling the
spec's claims against the code.

The OS is modelled as an oracle giving, for each lseek call (indexed by a
per-run call counter, so concurrent file modification between calls is
representable), the raw return value of `libc::lseek` and the errno observed
after a failing call.
-/

/-- The whence argument of lseek, restricted to the modes the repository uses:
SEEK_DATA, SEEK_HOLE and SEEK_END. -/
inductive Whence where
  | seekData
  | seekHole
  | seekEnd
deriving DecidableEq, Repr

/-- Oracle for the OS behaviour of `libc::lseek` on one open file descriptor:
`lseek k off w` is the raw return value (negative on failure) of the k-th
lseek call of the run when issued with byte offset `off` and whence `w`;
`errno k off w` is the errno observed right after that call when it failed. -/
structure OsFile where
  lseek : Nat → Int → Whence → Int
  errno : Nat → Int → Whence → Nat

/-- A record of one lseek call actually issued to the OS: the (already
converted, signed) offset argument passed and the whence mode. -/
structure LseekCall where
  offset : Int
  whence : Whence
deriving DecidableEq, Repr

/-- errno value 6, the ENXIO code: the OS's "no more data of the requested
kind at or after this offset" response. -/
def errnoNoMoreData : Nat := 6

/-- `ItemKind` from src/lib.rs: is this Data or a Hole? -/
inductive ItemKind where
  | Data
  | Hole
deriving DecidableEq, Repr

/-- `SparseItem` from src/lib.rs: a point in the file (kind plus byte offset). -/
structure SparseItem where
  kind : ItemKind
  offset : Nat
deriving DecidableEq, Repr

/-- `SparseRangeItem` from src/lib.rs: a half-open range tagged with a kind. -/
structure SparseRangeItem where
  kind : ItemKind
  start : Nat
  stop : Nat
deriving DecidableEq, Repr

/-- `SparseIter` from src/lib.rs: its only field is the borrowed file,
modelled by its raw file descriptor. -/
structure SparseIter where
  file : Nat
deriving DecidableEq, Repr

/-- `SparseRangeIter` from src/lib.rs: an inner `SparseIter` plus the one-slot
buffer `prev`. -/
structure SparseRangeIter where
  inner : SparseIter
  prev : Option SparseItem
deriving DecidableEq, Repr

deriving instance DecidableEq for Except

/-- The value an `Iterator::next` call in Rust evaluates to when it returns:
`item r` is `Some(r)` (an item, possibly an error), `ends` is `None`. -/
inductive NextRet where
  | item (r : Except Nat SparseItem)
  | ends
deriving DecidableEq, Repr

/-- The loop body of `SparseIter::next` (src/lib.rs lines 103-115), run with
call counter `k` and the given fuel.  Each pass issues
`libc::lseek(self.file.as_raw_fd(), 0, SEEK_DATA)` — the offset argument is
the constant 0 — and returns `Some(Err(io::Error::last_os_error()))` when the
result is negative; on a non-negative result the loop body ends and the loop
re-runs.  The model returns the list of lseek calls issued together with
`some` of the Rust return value, or `none` when the loop is still running
after `fuel` passes. -/
def SparseIter.nextGo (os : OsFile) (k : Nat) : Nat → List LseekCall × Option NextRet
  | 0 => ([], none)
  | fuel + 1 =>
      let off := os.lseek k 0 Whence.seekData
      if off < 0 then
        ([⟨0, Whence.seekData⟩], some (NextRet.item (Except.error (os.errno k 0 Whence.seekData))))
      else
        let p := SparseIter.nextGo os (k + 1) fuel
        (⟨0, Whence.seekData⟩ :: p.1, p.2)

/-- `SparseIter::next` takes `&mut self` but writes no field, so the iterator
state after the call is the state before it; the call's observable behaviour
is `SparseIter.nextGo`. -/
def SparseIter.next (s : SparseIter) (os : OsFile) (k fuel : Nat) :
    SparseIter × List LseekCall × Option NextRet :=
  (s, SparseIter.nextGo os k fuel)

/-- What a call to `SparseRangeIter::next` can evaluate to: an item, end of
iteration, or a panic. -/
inductive RangeNextResult where
  | yields (r : Except Nat SparseRangeItem)
  | ends
  | panicked (msg : String)
deriving DecidableEq, Repr

/-- `SparseRangeIter::next` (src/lib.rs lines 164-191): the entire body other
than a commented-out draft is the `unimplemented!()` macro, which panics with
the message "not implemented" before touching `self` or the OS. -/
def SparseRangeIter.next (_s : SparseRangeIter) : RangeNextResult :=
  RangeNextResult.panicked "not implemented"

/-- One more than the largest u64 value representable as an i64: the bound at
which `u64::try_into::<i64>()` starts to fail. -/
def i64Bound : Nat := 2 ^ 63

/-- What `seek` in examples/print-info.rs evaluates to: a non-negative offset,
an `io::Result` error carrying an errno, or a panic (from
`offset.try_into().unwrap()` when the u64 offset does not fit in i64). -/
inductive SeekResult where
  | ok (off : Nat)
  | err (e : Nat)
  | panicked
deriving DecidableEq, Repr

/-- `seek` from examples/print-info.rs (lines 80-90): converts the u64
`offset` to the signed offset type with `try_into().unwrap()` (panicking when
it does not fit, before any OS call), then issues `libc::lseek` and returns
`Err(io::Error::last_os_error())` on a negative result, else the offset cast
back to u64.  Returns the next call counter, the lseek calls issued, and the
result. -/
def seek (os : OsFile) (k : Nat) (offset : Nat) (loc : Whence) :
    Nat × List LseekCall × SeekResult :=
  if offset < i64Bound then
    let off := os.lseek k (Int.ofNat offset) loc
    if off < 0 then
      (k + 1, [⟨Int.ofNat offset, loc⟩], SeekResult.err (os.errno k (Int.ofNat offset) loc))
    else
      (k + 1, [⟨Int.ofNat offset, loc⟩], SeekResult.ok off.toNat)
  else
    (k, [], SeekResult.panicked)

/-- How the iteration loop of `one_file` in examples/print-info.rs ends. -/
inductive LoopExit where
  | doneViaZeroAfterData
  | doneViaZeroAfterHole
  | doneViaNoMoreData (endOff : Nat) (endHole : Nat)
  | errored (e : Nat)
  | panicked
  | outOfFuel
deriving DecidableEq, Repr

/-- The `loop` of `one_file` in examples/print-info.rs (lines 96-130), with
call counter `k` and cursor `offset`.  Each pass seeks SEEK_DATA at `offset`;
on ENXIO it queries SEEK_END at 0 and SEEK_HOLE at `offset` (propagating their
errors via the `?` operator) and breaks; on any other error it panics; on
`Ok(off)` it sets `offset = off` and breaks when `off == 0`, else seeks
SEEK_HOLE at the new offset with `.unwrap()` (panicking on error), breaks when
that is 0, and otherwise loops.  Returns the lseek calls issued and how the
loop ended. -/
def oneFileLoop (os : OsFile) : Nat → Nat → Nat → List LseekCall × LoopExit
  | _, _, 0 => ([], LoopExit.outOfFuel)
  | k, offset, fuel + 1 =>
      match seek os k offset Whence.seekData with
      | (k1, t1, SeekResult.err e) =>
          if e = errnoNoMoreData then
            match seek os k1 0 Whence.seekEnd with
            | (k2, t2, SeekResult.ok endOff) =>
                match seek os k2 offset Whence.seekHole with
                | (_, t3, SeekResult.ok endHole) =>
                    (t1 ++ t2 ++ t3, LoopExit.doneViaNoMoreData endOff endHole)
                | (_, t3, SeekResult.err e3) => (t1 ++ t2 ++ t3, LoopExit.errored e3)
                | (_, t3, SeekResult.panicked) => (t1 ++ t2 ++ t3, LoopExit.panicked)
            | (_, t2, SeekResult.err e2) => (t1 ++ t2, LoopExit.errored e2)
            | (_, t2, SeekResult.panicked) => (t1 ++ t2, LoopExit.panicked)
          else (t1, LoopExit.panicked)
      | (_, t1, SeekResult.panicked) => (t1, LoopExit.panicked)
      | (k1, t1, SeekResult.ok off) =>
          if off = 0 then (t1, LoopExit.doneViaZeroAfterData)
          else
            match seek os k1 off Whence.seekHole with
            | (k2, t2, SeekResult.ok off2) =>
                if off2 = 0 then (t1 ++ t2, LoopExit.doneViaZeroAfterHole)
                else
                  let r := oneFileLoop os k2 off2 fuel
                  (t1 ++ t2 ++ r.1, r.2)
            | (_, t2, SeekResult.err _) => (t1 ++ t2, LoopExit.panicked)
            | (_, t2, SeekResult.panicked) => (t1 ++ t2, LoopExit.panicked)

/-- Oracle for an empty (length-zero) file: SEEK_DATA and SEEK_HOLE fail with
ENXIO at every offset (the offset is at or past end-of-file), SEEK_END
returns 0. -/
def osEmpty : OsFile where
  lseek := fun _ _ w =>
    match w with
    | Whence.seekEnd => 0
    | _ => -1
  errno := fun _ _ _ => errnoNoMoreData

/-- Oracle for a one-byte file whose single byte is data at offset 0:
SEEK_DATA at 0 returns 0, SEEK_HOLE at 0 returns 1 (the virtual end-of-file
hole), SEEK_END returns 1, and both region seeks fail with ENXIO at or past
offset 1. -/
def osAllData : OsFile where
  lseek := fun _ off w =>
    match w with
    | Whence.seekData => if off ≤ 0 then 0 else -1
    | Whence.seekHole => if off ≤ 0 then 1 else -1
    | Whence.seekEnd => 1
  errno := fun _ _ _ => errnoNoMoreData

/-- A `SparseIter` is determined by its one field: the struct carries no
cursor, no expected-kind flag and no terminal latch. -/
theorem SparseIter.eta (a : SparseIter) : a = ⟨a.file⟩ := by
  cases a
  rfl

/-- When every `lseek(fd, 0, SEEK_DATA)` call of the run succeeds, the loop in
`SparseIter::next` never returns: after any amount of fuel it has issued only
copies of the identical constant-offset call and produced no value. -/
theorem nextGo_of_success (os : OsFile)
    (h : ∀ j, 0 ≤ os.lseek j 0 Whence.seekData) :
    ∀ k fuel, SparseIter.nextGo os k fuel =
      (List.replicate fuel ⟨0, Whence.seekData⟩, none) := by
  intro k fuel
  induction fuel generalizing k with
  | zero => rfl
  | succ n ih =>
      have hlt : ¬ os.lseek k 0 Whence.seekData < 0 := not_lt.mpr (h k)
      simp [SparseIter.nextGo, hlt, ih (k + 1), List.replicate_succ]

/-- Claim C1: the spec says the ENXIO-class "no more data" response is
consumed internally and never returned to the caller as an error.  The code
does the opposite: on an empty file the first advancement of `SparseIter`
issues `lseek(fd, 0, SEEK_DATA)`, the OS answers ENXIO, and `next` returns
`Some(Err(ENXIO))` — the ENXIO error value is surfaced to the caller. -/
theorem c1_enxio_surfaced_to_caller :
    SparseIter.nextGo osEmpty 0 1 =
      ([⟨0, Whence.seekData⟩],
        some (NextRet.item (Except.error errnoNoMoreData))) := by
  rfl

/-- Claim C2: the spec says a drained `SparseRangeIter` emits contiguous
ranges covering [0, file_length).  The code cannot emit any range: the very
first advancement of a fresh range iterator panics (the body is the
unimplemented macro), so no drained sequence of ranges exists at all and
[0, file_length) is never covered for any non-empty file. -/
theorem c2_first_range_call_panics :
    SparseRangeIter.next ⟨⟨0⟩, none⟩ =
      RangeNextResult.panicked "not implemented" := by
  rfl

/-- Claim C3: the spec says each advancement alternates Data/Hole queries
at-or-after the cursor, emits a point on success and flips the expected kind.
The code has no cursor, no alternation and no emission: on a file whose data
begins at offset 0 (so `lseek(fd, 0, SEEK_DATA)` succeeds with 0), the loop
re-issues the identical SEEK_DATA call at constant offset 0 forever — for
every call counter and every fuel the trace is only copies of that one call
and no value is ever produced (no Hole query, no emitted point, no flip). -/
theorem c3_never_alternates_never_emits :
    ∀ k fuel, SparseIter.nextGo osAllData k fuel =
      (List.replicate fuel ⟨0, Whence.seekData⟩, none) :=
  fun k fuel =>
    nextGo_of_success osAllData (fun _ => Int.le_refl 0) k fuel

/-- Claim C4: the spec says that once a terminal condition (Done or a
surfaced error) has been yielded, subsequent advancement calls yield nothing
and re-issue no OS calls.  The code has no terminal latch: on an empty file
the first `next` surfaces `Err(ENXIO)` and leaves the iterator state
unchanged, and the subsequent `next` on that returned state re-issues an
lseek call and yields a further `Err(ENXIO)` item. -/
theorem c4_error_does_not_latch :
    SparseIter.next ⟨0⟩ osEmpty 0 1 =
      (⟨0⟩, [⟨0, Whence.seekData⟩],
        some (NextRet.item (Except.error errnoNoMoreData))) ∧
    (SparseIter.next (SparseIter.next ⟨0⟩ osEmpty 0 1).1 osEmpty 1 1).2 =
      ([⟨0, Whence.seekData⟩],
        some (NextRet.item (Except.error errnoNoMoreData))) :=
  ⟨rfl, rfl⟩

/-- Claim C5: the spec says that when the point iterator reaches Done while a
previous point is buffered, the range iterator closes the final range against
the end-of-file offset.  The code never emits that final range: advancing a
range iterator that holds a buffered previous point panics (the body is the
unimplemented macro), dropping the last segment. -/
theorem c5_final_range_never_emitted :
    SparseRangeIter.next ⟨⟨2⟩, some ⟨ItemKind.Hole, 0⟩⟩ =
      RangeNextResult.panicked "not implemented" := by
  rfl

/-- Claim C6: the spec says an empty file yields zero points and zero ranges
with no error.  On the empty file the code instead yields an error item —
`next` returns `Some(Err(ENXIO))`, never `None` — and the range iterator
cannot be drained at all since its advancement panics. -/
theorem c6_empty_file_not_clean :
    (SparseIter.nextGo osEmpty 0 2).2 =
      some (NextRet.item (Except.error errnoNoMoreData)) ∧
    SparseRangeIter.next ⟨⟨1⟩, none⟩ =
      RangeNextResult.panicked "not implemented" :=
  ⟨rfl, rfl⟩

/-- Claim C7: the spec says the iteration loop never terminates by testing a
returned offset against zero, so a file whose data begins at offset 0 is
iterated in full.  The `one_file` loop does use that sentinel: on a one-byte
all-data file, SEEK_DATA at 0 returns 0 and the loop breaks through its
`off == 0` branch after that single lseek call — no SEEK_HOLE, no SEEK_END
comparison, and the file is not iterated. -/
theorem c7_zero_offset_used_as_sentinel :
    ∀ k fuel, oneFileLoop osAllData k 0 (fuel + 1) =
      ([⟨0, Whence.seekData⟩], LoopExit.doneViaZeroAfterData) :=
  fun _ _ => rfl

/-- Claim C8: every u64 offset not representable in the platform's signed
offset type makes the `seek` primitive fail fatally (the
`try_into().unwrap()` panics) before any OS call is issued, so no truncated
offset is ever passed to lseek: the call trace is empty and the result is the
panic. -/
theorem c8_unrepresentable_offset_panics (os : OsFile) (k offset : Nat)
    (loc : Whence) (h : i64Bound ≤ offset) :
    seek os k offset loc = (k, [], SeekResult.panicked) := by
  simp [seek, not_lt.mpr h]

/-- Witness for C8 at the smallest unrepresentable offset, 2^63. -/
theorem c8_witness :
    seek osEmpty 0 i64Bound Whence.seekData = (0, [], SeekResult.panicked) :=
  c8_unrepresentable_offset_panics osEmpty 0 i64Bound Whence.seekData
    (le_refl i64Bound)

/-- Claim C9: every call to `SparseRangeIter::next`, whatever the iterator
state, panics via the unimplemented macro and returns no value — neither an
item, nor an error, nor end-of-iteration (the panic outcome is a distinct
constructor from `yields` and `ends`). -/
theorem c9_range_next_always_panics :
    ∀ s : SparseRangeIter,
      SparseRangeIter.next s = RangeNextResult.panicked "not implemented" :=
  fun _ => rfl

/-- Claim C10: `SparseIter` holds no cursor state (it is determined by its
single `file` field); when every `lseek(fd, 0, SEEK_DATA)` call succeeds the
loop in `next` re-issues the identical constant-offset-0 call forever and
never returns (no exit path on success); and whenever `next` does return a
value, some lseek call reported an error and the value is exactly the error
item built from that call's errno. -/
theorem c10_no_state_no_success_exit :
    (∀ a : SparseIter, a = ⟨a.file⟩) ∧
    (∀ os : OsFile, (∀ j, 0 ≤ os.lseek j 0 Whence.seekData) →
      ∀ k fuel, SparseIter.nextGo os k fuel =
        (List.replicate fuel ⟨0, Whence.seekData⟩, none)) ∧
    (∀ (os : OsFile) (k fuel : Nat) (r : NextRet),
      (SparseIter.nextGo os k fuel).2 = some r →
      ∃ j, os.lseek j 0 Whence.seekData < 0 ∧
        r = NextRet.item (Except.error (os.errno j 0 Whence.seekData))) := by
  refine ⟨SparseIter.eta, nextGo_of_success, ?_⟩
  intro os k fuel
  induction fuel generalizing k with
  | zero =>
      intro r hr
      simp [SparseIter.nextGo] at hr
  | succ n ih =>
      intro r hr
      by_cases hlt : os.lseek k 0 Whence.seekData < 0
      · refine ⟨k, hlt, ?_⟩
        simp [SparseIter.nextGo, hlt] at hr
        exact hr.symm
      · simp [SparseIter.nextGo, hlt] at hr
        exact ih (k + 1) r hr

/-- Witness for C10: the no-success-exit part at the all-data oracle (every
SEEK_DATA call succeeds, the loop never returns after 2 passes), and the
error-cause part at the empty-file oracle where the first call fails. -/
theorem c10_witness :
    SparseIter.nextGo osAllData 0 2 =
      (List.replicate 2 ⟨0, Whence.seekData⟩, none) ∧
    ∃ j, osEmpty.lseek j 0 Whence.seekData < 0 ∧
      NextRet.item (Except.error errnoNoMoreData) =
        NextRet.item (Except.error (osEmpty.errno j 0 Whence.seekData)) :=
  ⟨c10_no_state_no_success_exit.2.1 osAllData (fun _ => Int.le_refl 0) 0 2,
   c10_no_state_no_success_exit.2.2 osEmpty 0 1
     (NextRet.item (Except.error errnoNoMoreData)) rfl⟩
